import Mathlib

/-!
Verification of `dreambooth/utils.py`: a shallow embedding of the
GPU-call isolation wrapper `wrap_gpu_call` and of the tag sanitizer
`sanitize_tags`, together with theorems settling the specified
properties of those functions.

Modelling conventions:
* Python runtime values relevant here are modelled by the inductive `Val`
  (`None`, `str`, `int`, `list`).
* The process-wide mutable `status` object is modelled by the structure
  `Status`; a job is a state transformer that either returns a value or
  raises an exception (`Except Exc Val`).
* `status.begin()` and `status.end()` are defined in `db_shared.py`,
  which is outside the sources at hand; the theorems therefore quantify
  over arbitrary total state transformers for them, so every result
  holds for any implementation of those two methods.
* Python's `str(args)` / `str(kwargs)` renderings are likewise
  abstracted as string arguments (the wrapper only concatenates and
  slices them), and stdlib `traceback.format_exc()` is abstracted to a
  function of the exception.
-/

namespace DB

/-- Python values as used around `wrap_gpu_call`: `None`, strings,
integers and lists. -/
inductive Val where
  | pyNone : Val
  | pyStr : String → Val
  | pyInt : Int → Val
  | pyList : List Val → Val
deriving Repr

/-- Whether a `Val` is a Python list. -/
def Val.isList : Val → Bool
  | .pyList _ => true
  | _ => false

/-- A raised Python exception: `kind` models `type(e).__name__` and
`msg` models `str(e)`. -/
structure Exc where
  kind : String
  msg : String
deriving Repr, DecidableEq

/-- The fields of the shared `db_shared.status` object that
`dreambooth/utils.py` reads or writes. -/
structure Status where
  job : String
  job_no : Int
  job_count : Int
  skipped : Bool
  interrupted : Bool
  textinfo : String
deriving Repr, DecidableEq

/-- Per-character translation of Python `html.escape(s)` (with its
default `quote=True`): the five HTML-special characters become
entities. The stdlib implements this as sequential `str.replace`
calls, `&` first; since no produced entity contains a character that a
later replace rewrites, the sequential replaces agree with this
character-wise map. -/
def escapeChar (c : Char) : String :=
  if c = '&' then "&amp;"
  else if c = '<' then "&lt;"
  else if c = '>' then "&gt;"
  else if c = '\"' then "&quot;"
  else if c = '\'' then "&#x27;"
  else String.singleton c

/-- Escape every character of a character list. -/
def escapeChars : List Char → List Char
  | [] => []
  | c :: cs => (escapeChar c).data ++ escapeChars cs

/-- Python `html.escape` on a string (default `quote=True`). -/
def html_escape (s : String) : String :=
  String.mk (escapeChars s.data)

/-- Source line 194: `max_debug_str_len = 131072  # (1024*1024)/8`. -/
def max_debug_str_len : Nat := 131072

/-- Python slicing `s[:n]`: the first `n` characters (code points). -/
def pySlice (s : String) (n : Nat) : String :=
  String.mk (s.data.take n)

/-- Source lines 198-200: the lines printed to stderr for the argument
dump — the dump sliced to `max_debug_str_len` characters, followed by a
truncation note exactly when the dump is longer than the cap. -/
def arg_dump_lines (arg_str : String) : List String :=
  [pySlice arg_str max_debug_str_len]
    ++ (if arg_str.length > max_debug_str_len then
          ["(Argument list truncated at " ++ toString max_debug_str_len ++ "/"
            ++ toString arg_str.length ++ " characters)"]
        else [])

/-- Models Python `traceback.format_exc()` (stdlib): frame details are
abstracted, the final line is `Kind: message` as CPython renders it. -/
def format_exc (e : Exc) : String :=
  "Traceback (most recent call last):" ++ "\n" ++ e.kind ++ ": " ++ e.msg

/-- Source line 210's trailing element:
`f"<div class='error'>{html.escape(type(e).__name__ + ': ' + str(e))}</div>"`. -/
def error_div (e : Exc) : String :=
  "<div class='error'>" ++ html_escape (e.kind ++ ": " ++ e.msg) ++ "</div>"

/-- Source lines 212-214: the unconditional reset executed after the
try/except on both the success and the exception path. -/
def resetFlags (s : Status) : Status :=
  { s with skipped := false, interrupted := false, job_count := 0 }

/-- The Python type name of a value, for the `TypeError` message of a
failed list concatenation. -/
def pyTypeName : Val → String
  | .pyNone => "NoneType"
  | .pyStr _ => "str"
  | .pyInt _ => "int"
  | .pyList _ => "list"

/-- The `TypeError` CPython raises for `x + [..]` when `x` is not a
list (source line 210 with a non-list, non-`None` template); it is
raised inside the `except` block, so it would escape the wrapper. -/
def concatTypeError (v : Val) : Exc :=
  { kind := "TypeError",
    msg := "unsupported operand type(s) for +: '" ++ pyTypeName v ++ "' and 'list'" }

/-- What one invocation of the wrapped function leaves behind: the
shared status, the lines written to stderr, and either the returned
value or an exception that escaped the wrapper. -/
structure CallResult where
  st : Status
  stderr : List String
  out : Except Exc Val
deriving Repr

/-- The body of the inner function `f` of `wrap_gpu_call` (source
lines 186-216), for an already-bound `extra_outputs_array` parameter
and a job with its arguments already applied. `begin_fn` / `end_fn`
model `status.begin()` / `status.end()` (defined outside these
sources) as arbitrary total state transformers; `args_str` /
`kwargs_str` model `str(args)` / `str(kwargs)`. On the exception path
the wrapper prints the diagnostics, clears `job` and `job_count`,
defaults the template to `[None, '']` when it is `None`, and appends
the rendered error element; the flag reset of lines 212-214 runs on
both paths. -/
def f_body (extra_outputs_array : Val) (job : Status → Status × Except Exc Val)
    (begin_fn end_fn : Status → Status) (args_str kwargs_str : String)
    (s : Status) : CallResult :=
  match job (begin_fn s) with
  | (s2, Except.ok res) =>
      { st := resetFlags (end_fn s2), stderr := [], out := Except.ok res }
  | (s2, Except.error e) =>
      let arg_str := "Arguments: " ++ args_str ++ " " ++ kwargs_str
      let errlines :=
        ["Error completing request"] ++ arg_dump_lines arg_str ++ [format_exc e]
      let s3 := { s2 with job := "", job_count := 0 }
      let eoa :=
        match extra_outputs_array with
        | Val.pyNone => Val.pyList [Val.pyNone, Val.pyStr ""]
        | v => v
      match eoa with
      | Val.pyList xs =>
          { st := resetFlags s3, stderr := errlines,
            out := Except.ok (Val.pyList (xs ++ [Val.pyStr (error_div e)])) }
      | other =>
          { st := s3, stderr := errlines,
            out := Except.error (concatTypeError other) }

/-- `wrap_gpu_call(func, extra_outputs)` applied to a call
`f(*args, **kwargs)` (source lines 185-218). Python binds the
keyword-only parameter `extra_outputs_array` from the call's keyword
arguments when present (removing it from the `**kwargs` the job
receives) and from the wrap-time `extra_outputs` default otherwise.
`repr_args` / `repr_kwargs` abstract Python's `str()` rendering of the
argument tuple and keyword dictionary. -/
def wrap_gpu_call
    (func : List Val → List (String × Val) → Status → Status × Except Exc Val)
    (extra_outputs : Val)
    (begin_fn end_fn : Status → Status)
    (repr_args : List Val → String) (repr_kwargs : List (String × Val) → String)
    (args : List Val) (kwargs : List (String × Val)) (s : Status) : CallResult :=
  let eoa := (kwargs.lookup "extra_outputs_array").getD extra_outputs
  let fwd := kwargs.filter (fun p => p.1 != "extra_outputs_array")
  f_body eoa (func args fwd) begin_fn end_fn (repr_args args) (repr_kwargs fwd) s

/-- A template value respecting the wrapper's contract: `None` or a
list (the spec's "ordered sequence of placeholder values"). -/
def templateOk : Val → Bool
  | .pyNone => true
  | .pyList _ => true
  | _ => false

/-- The template the exception path concatenates onto: the supplied
list, or `[None, '']` when the bound template is `None` (source lines
207-208). -/
def template_or_default : Val → List Val
  | .pyList xs => xs
  | _ => [Val.pyNone, Val.pyStr ""]

/-- Python `str.isalnum()` on the ASCII range (`Char.isAlphanum`); the
tags this extension sanitizes are ASCII, where Python's Unicode
`isalnum` agrees with this predicate. -/
def pyIsAlnum (c : Char) : Bool := c.isAlphanum

/-- Source line 87's keep-set: `x.isalnum() or x in "._-"`. -/
def keepTag (c : Char) : Bool :=
  pyIsAlnum c || c = '.' || c = '_' || c = '-'

/-- Source line 89's keep-set: `x.isalnum() or x in "._-,"`. -/
def keepFinal (c : Char) : Bool :=
  pyIsAlnum c || c = '.' || c = '_' || c = '-' || c = ','

/-- The whitespace characters Python's `str.strip()` removes (ASCII). -/
def pyIsSpace (c : Char) : Bool :=
  c = ' ' || c = '\t' || c = '\n' || c = '\x0b' || c = '\x0c' || c = '\r'

/-- Python `str.strip()`: drop leading and trailing whitespace. -/
def pyStrip (l : List Char) : List Char :=
  ((l.dropWhile pyIsSpace).reverse.dropWhile pyIsSpace).reverse

/-- Python `tag.replace(" ", "_")`. -/
def replaceSpace (l : List Char) : List Char :=
  l.map (fun c => if c = ' ' then '_' else c)

/-- Python `name.split(",")`: the comma-separated pieces, `[""]` for
the empty string. -/
def pySplitComma : List Char → List (List Char)
  | [] => [[]]
  | c :: cs =>
      if c = ',' then [] :: pySplitComma cs
      else
        match pySplitComma cs with
        | [] => [[c]]
        | t :: ts => (c :: t) :: ts

/-- Source lines 82-89: `sanitize_tags`. The loop variable `name` is
overwritten (not appended to) on every iteration, which the `foldl`
whose function ignores its accumulator mirrors; the final two lines
re-apply the space replacement and a filter that also keeps commas. -/
def sanitize_tags (name : String) : String :=
  let tags := pySplitComma name.data
  let name1 := tags.foldl
    (fun _ tag => (pyStrip (replaceSpace tag)).filter keepTag) []
  String.mk ((replaceSpace name1).filter keepFinal)

/-- A sample busy status used by the concrete witnesses. -/
def sampleStatus : Status :=
  { job := "jobname", job_no := 3, job_count := 5, skipped := true,
    interrupted := true, textinfo := "t" }

/-- A job that raises `ValueError("bad size")`. -/
def valueErrorJob : Status → Status × Except Exc Val :=
  fun st => (st, Except.error { kind := "ValueError", msg := "bad size" })

/-- A job that returns the integer 42. -/
def okJob : Status → Status × Except Exc Val :=
  fun st => (st, Except.ok (Val.pyInt 42))

/-- A job that returns the integer 7. -/
def intJob : Status → Status × Except Exc Val :=
  fun st => (st, Except.ok (Val.pyInt 7))

/-- Sample keyword arguments carrying the reserved name. -/
def sampleKwargs : List (String × Val) :=
  [("extra_outputs_array", Val.pyList [Val.pyInt 1]), ("x", Val.pyInt 2)]

/-- A job (with argument parameters) that raises `ValueError("bad size")`. -/
def valueErrorFunc : List Val → List (String × Val) → Status
    → Status × Except Exc Val :=
  fun _ _ st => (st, Except.error { kind := "ValueError", msg := "bad size" })

/-- An argument dump of exactly the cap's length. -/
def dumpAtCap : String := String.mk (List.replicate 131072 'a')

/-- An argument dump one character over the cap. -/
def dumpOverCap : String := String.mk (List.replicate 131073 'a')

lemma escapeChar_no_angle (a : Char) :
    '<' ∉ (escapeChar a).data ∧ '>' ∉ (escapeChar a).data := by
  by_cases h1 : a = '&'
  · subst h1; decide
  by_cases h2 : a = '<'
  · subst h2; decide
  by_cases h3 : a = '>'
  · subst h3; decide
  by_cases h4 : a = '\"'
  · subst h4; decide
  by_cases h5 : a = '\''
  · subst h5; decide
  have hs : escapeChar a = String.singleton a := by
    simp [escapeChar, h1, h2, h3, h4, h5]
  rw [hs]
  constructor
  · intro hc
    simp [String.singleton] at hc
    exact h2 hc.symm
  · intro hc
    simp [String.singleton] at hc
    exact h3 hc.symm

lemma escapeChars_no_angle (l : List Char) :
    ∀ c ∈ escapeChars l, c ≠ '<' ∧ c ≠ '>' := by
  induction l with
  | nil => intro c hc; cases hc
  | cons a t ih =>
    intro c hc
    rw [escapeChars] at hc
    rcases List.mem_append.1 hc with h | h
    · constructor
      · intro he; subst he; exact (escapeChar_no_angle a).1 h
      · intro he; subst he; exact (escapeChar_no_angle a).2 h
    · exact ih c h

lemma f_body_ok (eoa : Val) (job : Status → Status × Except Exc Val)
    (begin_fn end_fn : Status → Status) (args_str kwargs_str : String)
    (s s2 : Status) (v : Val) (hjob : job (begin_fn s) = (s2, Except.ok v)) :
    f_body eoa job begin_fn end_fn args_str kwargs_str s
      = { st := resetFlags (end_fn s2), stderr := [], out := Except.ok v } := by
  simp [f_body, hjob]

lemma f_body_error (eoa : Val) (job : Status → Status × Except Exc Val)
    (begin_fn end_fn : Status → Status) (args_str kwargs_str : String)
    (s s2 : Status) (exc : Exc) (hok : templateOk eoa = true)
    (hjob : job (begin_fn s) = (s2, Except.error exc)) :
    f_body eoa job begin_fn end_fn args_str kwargs_str s
      = { st := resetFlags { s2 with job := "", job_count := 0 },
          stderr := ["Error completing request"]
            ++ arg_dump_lines ("Arguments: " ++ args_str ++ " " ++ kwargs_str)
            ++ [format_exc exc],
          out := Except.ok (Val.pyList
            (template_or_default eoa ++ [Val.pyStr (error_div exc)])) } := by
  cases eoa with
  | pyNone => simp [f_body, hjob, template_or_default]
  | pyList xs => simp [f_body, hjob, template_or_default]
  | pyStr s => simp [templateOk] at hok
  | pyInt n => simp [templateOk] at hok

lemma f_body_flags_idle (eoa : Val) (job : Status → Status × Except Exc Val)
    (begin_fn end_fn : Status → Status) (args_str kwargs_str : String) (s : Status)
    (hok : templateOk eoa = true) :
    (f_body eoa job begin_fn end_fn args_str kwargs_str s).st.skipped = false
    ∧ (f_body eoa job begin_fn end_fn args_str kwargs_str s).st.interrupted = false
    ∧ (f_body eoa job begin_fn end_fn args_str kwargs_str s).st.job_count = 0 := by
  rcases hjr : job (begin_fn s) with ⟨s2, r⟩
  cases r with
  | ok v =>
    rw [f_body_ok eoa job begin_fn end_fn args_str kwargs_str s s2 v hjr]
    exact ⟨rfl, rfl, rfl⟩
  | error e =>
    rw [f_body_error eoa job begin_fn end_fn args_str kwargs_str s s2 e hok hjr]
    exact ⟨rfl, rfl, rfl⟩

lemma lookup_filter_out (key : String) (l : List (String × Val)) :
    (l.filter (fun p => p.1 != key)).lookup key = none := by
  induction l with
  | nil => rfl
  | cons a t ih =>
    obtain ⟨a1, a2⟩ := a
    rw [List.filter_cons]
    by_cases h : a1 = key
    · rw [if_neg (by simp [h])]
      exact ih
    · rw [if_pos (by simp [h])]
      simp only [List.lookup]
      rw [beq_false_of_ne (Ne.symm h)]
      exact ih

lemma lookup_filter_other (key k : String) (hne : ¬ k = key)
    (l : List (String × Val)) :
    (l.filter (fun p => p.1 != key)).lookup k = l.lookup k := by
  induction l with
  | nil => rfl
  | cons a t ih =>
    obtain ⟨a1, a2⟩ := a
    rw [List.filter_cons]
    by_cases h : a1 = key
    · subst h
      rw [if_neg (by simp)]
      rw [ih]
      simp only [List.lookup]
      rw [beq_false_of_ne hne]
    · rw [if_pos (by simp [h])]
      simp only [List.lookup]
      rw [ih]

lemma pySplitComma_ne_nil (l : List Char) : pySplitComma l ≠ [] := by
  cases l with
  | nil => simp [pySplitComma]
  | cons c cs =>
    rw [pySplitComma]
    split
    · simp
    · split <;> simp

lemma pySplitComma_append (a b : List Char) :
    pySplitComma (a ++ ',' :: b) = pySplitComma a ++ pySplitComma b := by
  induction a with
  | nil => simp [pySplitComma]
  | cons c cs ih =>
    by_cases h : c = ','
    · subst h
      rw [List.cons_append, pySplitComma, if_pos rfl, ih,
        pySplitComma, if_pos rfl]
      rfl
    · rw [List.cons_append, pySplitComma, if_neg h, ih]
      rw [pySplitComma, if_neg h]
      rcases hcs : pySplitComma cs with _ | ⟨t, ts⟩
      · exact absurd hcs (pySplitComma_ne_nil cs)
      · simp

lemma getLastD_irrel {α : Type} (l : List α) (h : l ≠ []) (d1 d2 : α) :
    l.getLastD d1 = l.getLastD d2 := by
  cases l with
  | nil => exact absurd rfl h
  | cons a t => rfl

lemma getLastD_append_right {α : Type} (l1 l2 : List α) (h : l2 ≠ []) (d : α) :
    (l1 ++ l2).getLastD d = l2.getLastD d := by
  induction l1 generalizing d with
  | nil => rfl
  | cons a t ih =>
    rw [List.cons_append, List.getLastD_cons, ih a]
    exact getLastD_irrel l2 h a d

lemma foldl_overwrite (f : List Char → List Char) (l : List (List Char))
    (init : List Char) (h : l ≠ []) :
    l.foldl (fun _ x => f x) init = f (l.getLastD []) := by
  induction l generalizing init with
  | nil => exact absurd rfl h
  | cons a t ih =>
    cases t with
    | nil => rfl
    | cons b bs =>
      rw [List.foldl_cons, ih (f a) (by simp)]
      refine congrArg f ((getLastD_irrel (b :: bs) (by simp) [] a).trans ?_)
      exact (List.getLastD_cons a [] (b :: bs)).symm

lemma filter_dropWhile {p q : Char → Bool} (hpq : ∀ a, q a = true → p a = false)
    (l : List Char) : (l.dropWhile q).filter p = l.filter p := by
  induction l with
  | nil => rfl
  | cons a t ih =>
    by_cases h : q a
    · rw [List.dropWhile_cons_of_pos h, ih, List.filter_cons,
        if_neg (by simp [hpq a h])]
    · rw [List.dropWhile_cons_of_neg h]

lemma keepTag_space (c : Char) (h : pyIsSpace c = true) : keepTag c = false := by
  have hc : c = ' ' ∨ c = '\t' ∨ c = '\n' ∨ c = '\x0b' ∨ c = '\x0c' ∨ c = '\r' := by
    simpa [pyIsSpace, or_assoc] using h
  rcases hc with rfl | rfl | rfl | rfl | rfl | rfl <;> decide

lemma filter_pyStrip (l : List Char) :
    (pyStrip l).filter keepTag = l.filter keepTag := by
  rw [pyStrip, List.filter_reverse, filter_dropWhile keepTag_space,
    List.filter_reverse, List.reverse_reverse, filter_dropWhile keepTag_space]

lemma replaceSpace_filter_keepTag (l : List Char) :
    replaceSpace (l.filter keepTag) = l.filter keepTag := by
  rw [replaceSpace]
  have hme : ∀ c ∈ l.filter keepTag, (if c = ' ' then '_' else c) = c := by
    intro c hc
    have hk : keepTag c = true := List.of_mem_filter hc
    have hne : ¬ c = ' ' := by
      intro hsp
      subst hsp
      exact absurd hk (by decide)
    rw [if_neg hne]
  calc (l.filter keepTag).map (fun c => if c = ' ' then '_' else c)
      = (l.filter keepTag).map id := List.map_congr_left hme
    _ = l.filter keepTag := List.map_id _

lemma filter_keepFinal_keepTag (l : List Char) :
    (l.filter keepTag).filter keepFinal = l.filter keepTag := by
  rw [List.filter_eq_self]
  intro c hc
  have hk : keepTag c = true := List.of_mem_filter hc
  rw [keepFinal]
  rw [keepTag] at hk
  rcases Bool.or_eq_true_iff.1 hk with h | h
  · rw [h]
    rfl
  · rw [h]
    simp

lemma sanitize_tags_eq (name : String) :
    sanitize_tags name
      = String.mk ((replaceSpace ((pySplitComma name.data).getLastD [])).filter
          keepTag) := by
  simp only [sanitize_tags]
  rw [foldl_overwrite _ _ _ (pySplitComma_ne_nil name.data)]
  rw [filter_pyStrip, replaceSpace_filter_keepTag, filter_keepFinal_keepTag]

/-- C1: when the job raises an exception of kind `K` with message `M`,
the wrapped call returns the extra-outputs template (defaulting to
`[None, ""]`) with exactly one additional trailing element, the string
`<div class='error'>` ++ html_escape (K ++ ": " ++ M) ++ `</div>`;
the escaped message never contains a raw `<` or `>`. -/
theorem C1_failure_result (eoa : Val) (job : Status → Status × Except Exc Val)
    (begin_fn end_fn : Status → Status) (args_str kwargs_str : String)
    (s s2 : Status) (exc : Exc)
    (hok : templateOk eoa = true)
    (hjob : job (begin_fn s) = (s2, Except.error exc)) :
    (f_body eoa job begin_fn end_fn args_str kwargs_str s).out
      = Except.ok (Val.pyList (template_or_default eoa ++ [Val.pyStr (error_div exc)]))
    ∧ error_div exc
      = "<div class='error'>" ++ html_escape (exc.kind ++ ": " ++ exc.msg) ++ "</div>"
    ∧ ∀ c ∈ (html_escape exc.msg).data, c ≠ '<' ∧ c ≠ '>' := by
  refine ⟨?_, rfl, ?_⟩
  · rw [f_body_error eoa job begin_fn end_fn args_str kwargs_str s s2 exc hok hjob]
  · intro c hc
    exact escapeChars_no_angle exc.msg.data c hc

/-- Witness for C1: a job raising `ValueError("bad size")` with no
template yields `[None, "", "<div class='error'>ValueError: bad
size</div>"]`, and a `<script>` message is escaped. -/
theorem C1_witness :
    templateOk Val.pyNone = true
    ∧ valueErrorJob (id sampleStatus)
        = (sampleStatus, Except.error { kind := "ValueError", msg := "bad size" })
    ∧ (f_body Val.pyNone valueErrorJob id id "()" "" sampleStatus).out
        = Except.ok (Val.pyList [Val.pyNone, Val.pyStr "",
            Val.pyStr "<div class='error'>ValueError: bad size</div>"])
    ∧ html_escape "<script>" = "&lt;script&gt;" :=
  ⟨rfl, rfl,
    (C1_failure_result Val.pyNone valueErrorJob id id "()" "" sampleStatus sampleStatus
        { kind := "ValueError", msg := "bad size" } rfl rfl).1.trans (by rfl),
    rfl⟩

/-- C2: when the job returns normally, the wrapped call returns the
job's value unchanged, and afterwards the shared status fields
`skipped`, `interrupted` and `job_count` equal `false`, `false`, `0`. -/
theorem C2_success_result (eoa : Val) (job : Status → Status × Except Exc Val)
    (begin_fn end_fn : Status → Status) (args_str kwargs_str : String)
    (s s2 : Status) (v : Val)
    (hjob : job (begin_fn s) = (s2, Except.ok v)) :
    (f_body eoa job begin_fn end_fn args_str kwargs_str s).out = Except.ok v
    ∧ (f_body eoa job begin_fn end_fn args_str kwargs_str s).st.skipped = false
    ∧ (f_body eoa job begin_fn end_fn args_str kwargs_str s).st.interrupted = false
    ∧ (f_body eoa job begin_fn end_fn args_str kwargs_str s).st.job_count = 0 := by
  rw [f_body_ok eoa job begin_fn end_fn args_str kwargs_str s s2 v hjob]
  exact ⟨rfl, rfl, rfl, rfl⟩

/-- Witness for C2: a job returning the integer 42. -/
theorem C2_witness :
    okJob (id sampleStatus) = (sampleStatus, Except.ok (Val.pyInt 42))
    ∧ ((f_body Val.pyNone okJob id id "" "" sampleStatus).out = Except.ok (Val.pyInt 42)
      ∧ (f_body Val.pyNone okJob id id "" "" sampleStatus).st.skipped = false
      ∧ (f_body Val.pyNone okJob id id "" "" sampleStatus).st.interrupted = false
      ∧ (f_body Val.pyNone okJob id id "" "" sampleStatus).st.job_count = 0) :=
  ⟨rfl, C2_success_result Val.pyNone okJob id id "" "" sampleStatus sampleStatus
    (Val.pyInt 42) rfl⟩

/-- C3: for every job and every contract-respecting template the
wrapped call returns a value — no exception the job raises propagates
to the caller. -/
theorem C3_never_raises (eoa : Val) (job : Status → Status × Except Exc Val)
    (begin_fn end_fn : Status → Status) (args_str kwargs_str : String) (s : Status)
    (hok : templateOk eoa = true) :
    ∃ v : Val, (f_body eoa job begin_fn end_fn args_str kwargs_str s).out
      = Except.ok v := by
  rcases hjr : job (begin_fn s) with ⟨s2, r⟩
  cases r with
  | ok v =>
    exact ⟨v, by rw [f_body_ok eoa job begin_fn end_fn args_str kwargs_str s s2 v hjr]⟩
  | error e =>
    exact ⟨Val.pyList (template_or_default eoa ++ [Val.pyStr (error_div e)]),
      by rw [f_body_error eoa job begin_fn end_fn args_str kwargs_str s s2 e hok hjr]⟩

/-- Witness for C3: the raising job produces an `ok` result. -/
theorem C3_witness :
    templateOk Val.pyNone = true
    ∧ ∃ v : Val, (f_body Val.pyNone valueErrorJob id id "" "" sampleStatus).out
        = Except.ok v :=
  ⟨rfl, C3_never_raises Val.pyNone valueErrorJob id id "" "" sampleStatus rfl⟩

/-- Counterexample to C4 as stated: a job that returns the bare
integer 7 makes the wrapped call return that integer, which is not a
list and hence not of the shape "template elements plus one trailing
string". -/
theorem C4_counterexample :
    (f_body Val.pyNone intJob id id "" "" sampleStatus).out = Except.ok (Val.pyInt 7)
    ∧ Val.isList (Val.pyInt 7) = false :=
  ⟨rfl, rfl⟩

/-- C4 (amended): on the failure path the result is always the
template's elements plus one trailing error string; on the success
path the wrapper returns the job's value unchanged, so the template
shape is guaranteed by the wrapper only on failure and holds on
success exactly when the job's own return value already has it. -/
theorem C4_shape_amended (eoa : Val) (begin_fn end_fn : Status → Status)
    (args_str kwargs_str : String) (s : Status) :
    (∀ job s2 exc, templateOk eoa = true →
        job (begin_fn s) = (s2, Except.error exc) →
        (f_body eoa job begin_fn end_fn args_str kwargs_str s).out
          = Except.ok (Val.pyList (template_or_default eoa ++ [Val.pyStr (error_div exc)]))
        ∧ (template_or_default eoa ++ [Val.pyStr (error_div exc)]).length
            = (template_or_default eoa).length + 1)
    ∧ (∀ job s2 v, job (begin_fn s) = (s2, Except.ok v) →
        (f_body eoa job begin_fn end_fn args_str kwargs_str s).out = Except.ok v) := by
  constructor
  · intro job s2 exc hok hjob
    rw [f_body_error eoa job begin_fn end_fn args_str kwargs_str s s2 exc hok hjob]
    exact ⟨rfl, by simp⟩
  · intro job s2 v hjob
    rw [f_body_ok eoa job begin_fn end_fn args_str kwargs_str s s2 v hjob]

/-- Witness for C4: both branches of the amended statement at concrete
jobs. -/
theorem C4_witness :
    ((f_body Val.pyNone valueErrorJob id id "" "" sampleStatus).out
        = Except.ok (Val.pyList (template_or_default Val.pyNone
            ++ [Val.pyStr (error_div { kind := "ValueError", msg := "bad size" })]))
      ∧ (template_or_default Val.pyNone
          ++ [Val.pyStr (error_div { kind := "ValueError", msg := "bad size" })]).length
            = (template_or_default Val.pyNone).length + 1)
    ∧ (f_body Val.pyNone intJob id id "" "" sampleStatus).out = Except.ok (Val.pyInt 7) :=
  ⟨(C4_shape_amended Val.pyNone id id "" "" sampleStatus).1 valueErrorJob sampleStatus
      { kind := "ValueError", msg := "bad size" } rfl rfl,
    (C4_shape_amended Val.pyNone id id "" "" sampleStatus).2 intJob sampleStatus
      (Val.pyInt 7) rfl⟩

/-- C5: the diagnostic argument dump on the exception path is capped
at 131072 characters — a dump of exactly 131072 characters is printed
whole with no truncation note, one of 131073 characters is cut to its
first 131072 characters and annotated with `(Argument list truncated
at 131072/131073 characters)`, and in general a longer dump is
truncated to the cap and annotated with the cap and the full original
length; the wrapper's stderr on failure embeds exactly these lines. -/
theorem C5_truncation (s : String) :
    (s.length = max_debug_str_len → arg_dump_lines s = [s])
    ∧ (s.length = 131073 →
        arg_dump_lines s
          = [pySlice s max_debug_str_len,
             "(Argument list truncated at 131072/131073 characters)"])
    ∧ (max_debug_str_len < s.length →
        arg_dump_lines s
          = [pySlice s max_debug_str_len,
             "(Argument list truncated at 131072/" ++ toString s.length
               ++ " characters)"]
          ∧ (pySlice s max_debug_str_len).length = max_debug_str_len)
    ∧ (∀ eoa job begin_fn end_fn args_str kwargs_str st s2 exc,
        templateOk eoa = true →
        job (begin_fn st) = (s2, Except.error exc) →
        (f_body eoa job begin_fn end_fn args_str kwargs_str st).stderr
          = ["Error completing request"]
            ++ arg_dump_lines ("Arguments: " ++ args_str ++ " " ++ kwargs_str)
            ++ [format_exc exc]) := by
  refine ⟨?_, ?_, ?_, ?_⟩
  · intro h
    have hd : s.data.length = max_debug_str_len := h
    rw [arg_dump_lines, if_neg (by omega)]
    rw [pySlice, ← hd, List.take_length]
    rfl
  · intro h
    have hgt : s.length > max_debug_str_len := by
      rw [h]; norm_num [max_debug_str_len]
    rw [arg_dump_lines, if_pos hgt, h]
    rfl
  · intro h
    refine ⟨by rw [arg_dump_lines, if_pos h]; rfl, ?_⟩
    rw [pySlice]
    show (s.data.take max_debug_str_len).length = max_debug_str_len
    rw [List.length_take]
    have : max_debug_str_len ≤ s.data.length := Nat.le_of_lt h
    omega
  · intro eoa job begin_fn end_fn args_str kwargs_str st s2 exc hok hjob
    rw [f_body_error eoa job begin_fn end_fn args_str kwargs_str st s2 exc hok hjob]

/-- Witness for C5: concrete dumps of 131072 and 131073 characters. -/
theorem C5_witness :
    dumpAtCap.length = max_debug_str_len
    ∧ arg_dump_lines dumpAtCap = [dumpAtCap]
    ∧ dumpOverCap.length = 131073
    ∧ arg_dump_lines dumpOverCap
        = [pySlice dumpOverCap max_debug_str_len,
           "(Argument list truncated at 131072/131073 characters)"] :=
  have hA : dumpAtCap.length = max_debug_str_len := by
    show (List.replicate 131072 'a').length = max_debug_str_len
    rw [List.length_replicate]
    rfl
  have hB : dumpOverCap.length = 131073 := by
    show (List.replicate 131073 'a').length = 131073
    rw [List.length_replicate]
  ⟨hA, (C5_truncation dumpAtCap).1 hA, hB, (C5_truncation dumpOverCap).2.1 hB⟩

/-- Counterexample to C6 as stated: after a failing call the shared
job index `job_no` still holds its old value 3 — the wrapper does not
clear it on the exception path (it does clear `job`). -/
theorem C6_counterexample :
    (f_body Val.pyNone valueErrorJob id id "" "" sampleStatus).st.job = ""
    ∧ (f_body Val.pyNone valueErrorJob id id "" "" sampleStatus).st.job_no = 3
    ∧ ¬ (f_body Val.pyNone valueErrorJob id id "" "" sampleStatus).st.job_no = 0 := by
  refine ⟨rfl, rfl, ?_⟩
  decide

/-- C6 (amended): the wrapper resets `skipped`, `interrupted` and
`job_count` identically (to false/false/0) on both paths; it clears
the job name `job` (and, before the common reset, `job_count`) only on
the exception path; the job index `job_no` is not modified by the
wrapper on either path — on success the final state is exactly the
flag-reset of `end()`'s output, on failure `job_no` is whatever the
job left. -/
theorem C6_clear_asymmetry (eoa : Val) (job : Status → Status × Except Exc Val)
    (begin_fn end_fn : Status → Status) (args_str kwargs_str : String)
    (s s2 : Status) :
    (∀ v, job (begin_fn s) = (s2, Except.ok v) →
        (f_body eoa job begin_fn end_fn args_str kwargs_str s).st
          = resetFlags (end_fn s2))
    ∧ (∀ exc, templateOk eoa = true → job (begin_fn s) = (s2, Except.error exc) →
        (f_body eoa job begin_fn end_fn args_str kwargs_str s).st
          = resetFlags { s2 with job := "", job_count := 0 })
    ∧ (resetFlags (end_fn s2)).job = (end_fn s2).job
    ∧ (resetFlags (end_fn s2)).job_no = (end_fn s2).job_no
    ∧ (resetFlags { s2 with job := "", job_count := 0 }).job = ""
    ∧ (resetFlags { s2 with job := "", job_count := 0 }).job_no = s2.job_no
    ∧ ∀ st : Status, (resetFlags st).skipped = false
        ∧ (resetFlags st).interrupted = false ∧ (resetFlags st).job_count = 0 := by
  refine ⟨?_, ?_, rfl, rfl, rfl, rfl, fun st => ⟨rfl, rfl, rfl⟩⟩
  · intro v hjob
    rw [f_body_ok eoa job begin_fn end_fn args_str kwargs_str s s2 v hjob]
  · intro exc hok hjob
    rw [f_body_error eoa job begin_fn end_fn args_str kwargs_str s s2 exc hok hjob]

/-- Witness for C6: the two paths at concrete jobs. -/
theorem C6_witness :
    (okJob (id sampleStatus) = (sampleStatus, Except.ok (Val.pyInt 42))
      ∧ (f_body Val.pyNone okJob id id "" "" sampleStatus).st
          = resetFlags (id sampleStatus))
    ∧ (valueErrorJob (id sampleStatus)
          = (sampleStatus, Except.error { kind := "ValueError", msg := "bad size" })
      ∧ (f_body Val.pyNone valueErrorJob id id "" "" sampleStatus).st
          = resetFlags { sampleStatus with job := "", job_count := 0 }) :=
  ⟨⟨rfl, (C6_clear_asymmetry Val.pyNone okJob id id "" "" sampleStatus sampleStatus).1
      (Val.pyInt 42) rfl⟩,
    ⟨rfl, (C6_clear_asymmetry Val.pyNone valueErrorJob id id "" ""
        sampleStatus sampleStatus).2.1
      { kind := "ValueError", msg := "bad size" } rfl rfl⟩⟩

/-- C7: running the wrapped function twice in sequence — a succeeding
job then a failing one, or the other way round — leaves the shared
status flags in the same idle shape (`skipped = false`,
`interrupted = false`, `job_count = 0`) regardless of order. -/
theorem C7_order_independent (eoa1 eoa2 : Val)
    (job1 job2 : Status → Status × Except Exc Val)
    (begin_fn end_fn : Status → Status) (args_str kwargs_str : String) (s : Status)
    (h1 : templateOk eoa1 = true) (h2 : templateOk eoa2 = true)
    (_hsucc : ∀ st : Status, ∃ s2 v, job1 st = (s2, Except.ok v))
    (_hfail : ∀ st : Status, ∃ s2 exc, job2 st = (s2, Except.error exc)) :
    ((f_body eoa2 job2 begin_fn end_fn args_str kwargs_str
        (f_body eoa1 job1 begin_fn end_fn args_str kwargs_str s).st).st.skipped = false
      ∧ (f_body eoa2 job2 begin_fn end_fn args_str kwargs_str
        (f_body eoa1 job1 begin_fn end_fn args_str kwargs_str s).st).st.interrupted = false
      ∧ (f_body eoa2 job2 begin_fn end_fn args_str kwargs_str
        (f_body eoa1 job1 begin_fn end_fn args_str kwargs_str s).st).st.job_count = 0)
    ∧ ((f_body eoa1 job1 begin_fn end_fn args_str kwargs_str
        (f_body eoa2 job2 begin_fn end_fn args_str kwargs_str s).st).st.skipped = false
      ∧ (f_body eoa1 job1 begin_fn end_fn args_str kwargs_str
        (f_body eoa2 job2 begin_fn end_fn args_str kwargs_str s).st).st.interrupted = false
      ∧ (f_body eoa1 job1 begin_fn end_fn args_str kwargs_str
        (f_body eoa2 job2 begin_fn end_fn args_str kwargs_str s).st).st.job_count = 0) :=
  ⟨f_body_flags_idle eoa2 job2 begin_fn end_fn args_str kwargs_str _ h2,
    f_body_flags_idle eoa1 job1 begin_fn end_fn args_str kwargs_str _ h1⟩

/-- Witness for C7: a succeeding and a failing job in both orders. -/
theorem C7_witness :
    templateOk Val.pyNone = true
    ∧ (∀ st : Status, ∃ s2 v, okJob st = (s2, Except.ok v))
    ∧ (∀ st : Status, ∃ s2 exc, valueErrorJob st = (s2, Except.error exc))
    ∧ (((f_body Val.pyNone valueErrorJob id id "" ""
          (f_body Val.pyNone okJob id id "" "" sampleStatus).st).st.skipped = false
        ∧ (f_body Val.pyNone valueErrorJob id id "" ""
          (f_body Val.pyNone okJob id id "" "" sampleStatus).st).st.interrupted = false
        ∧ (f_body Val.pyNone valueErrorJob id id "" ""
          (f_body Val.pyNone okJob id id "" "" sampleStatus).st).st.job_count = 0)
      ∧ ((f_body Val.pyNone okJob id id "" ""
          (f_body Val.pyNone valueErrorJob id id "" "" sampleStatus).st).st.skipped = false
        ∧ (f_body Val.pyNone okJob id id "" ""
          (f_body Val.pyNone valueErrorJob id id "" "" sampleStatus).st).st.interrupted = false
        ∧ (f_body Val.pyNone okJob id id "" ""
          (f_body Val.pyNone valueErrorJob id id "" "" sampleStatus).st).st.job_count = 0)) :=
  ⟨rfl, fun st => ⟨st, Val.pyInt 42, rfl⟩,
    fun st => ⟨st, { kind := "ValueError", msg := "bad size" }, rfl⟩,
    C7_order_independent Val.pyNone Val.pyNone okJob valueErrorJob id id "" ""
      sampleStatus rfl rfl (fun st => ⟨st, Val.pyInt 42, rfl⟩)
      (fun st => ⟨st, { kind := "ValueError", msg := "bad size" }, rfl⟩)⟩

/-- C8: the failure result is built by concatenation into a fresh
sequence — the result is the supplied template followed by exactly one
error string, its length is the template's length plus one, its
prefix is exactly the template, and a further failing call against the
state the first left still produces the template's original elements
followed by one error string. -/
theorem C8_template_preserved (xs : List Val) (job : Status → Status × Except Exc Val)
    (begin_fn end_fn : Status → Status) (args_str kwargs_str : String)
    (s s2 : Status) (exc : Exc)
    (hjob : job (begin_fn s) = (s2, Except.error exc)) :
    (f_body (Val.pyList xs) job begin_fn end_fn args_str kwargs_str s).out
      = Except.ok (Val.pyList (xs ++ [Val.pyStr (error_div exc)]))
    ∧ (xs ++ [Val.pyStr (error_div exc)]).length = xs.length + 1
    ∧ (xs ++ [Val.pyStr (error_div exc)]).take xs.length = xs
    ∧ (∀ job2 s3 exc2,
        job2 (begin_fn
            (f_body (Val.pyList xs) job begin_fn end_fn args_str kwargs_str s).st)
          = (s3, Except.error exc2) →
        (f_body (Val.pyList xs) job2 begin_fn end_fn args_str kwargs_str
            (f_body (Val.pyList xs) job begin_fn end_fn args_str kwargs_str s).st).out
          = Except.ok (Val.pyList (xs ++ [Val.pyStr (error_div exc2)]))) := by
  refine ⟨?_, by simp, List.take_left xs _, ?_⟩
  · rw [f_body_error (Val.pyList xs) job begin_fn end_fn args_str kwargs_str s s2 exc
      rfl hjob]
    rfl
  · intro job2 s3 exc2 hjob2
    rw [f_body_error (Val.pyList xs) job2 begin_fn end_fn args_str kwargs_str _ s3 exc2
      rfl hjob2]
    rfl

/-- Witness for C8: a two-element template survives two failing calls
unchanged. -/
theorem C8_witness :
    valueErrorJob (id sampleStatus)
      = (sampleStatus, Except.error { kind := "ValueError", msg := "bad size" })
    ∧ ((f_body (Val.pyList [Val.pyInt 1, Val.pyStr "x"]) valueErrorJob id id "" ""
          sampleStatus).out
        = Except.ok (Val.pyList ([Val.pyInt 1, Val.pyStr "x"]
            ++ [Val.pyStr (error_div { kind := "ValueError", msg := "bad size" })]))
      ∧ ([Val.pyInt 1, Val.pyStr "x"]
          ++ [Val.pyStr (error_div { kind := "ValueError", msg := "bad size" })]).length
            = [Val.pyInt 1, Val.pyStr "x"].length + 1
      ∧ ([Val.pyInt 1, Val.pyStr "x"]
          ++ [Val.pyStr (error_div { kind := "ValueError", msg := "bad size" })]).take
            [Val.pyInt 1, Val.pyStr "x"].length = [Val.pyInt 1, Val.pyStr "x"]
      ∧ (∀ job2 s3 exc2,
          job2 (id (f_body (Val.pyList [Val.pyInt 1, Val.pyStr "x"]) valueErrorJob
              id id "" "" sampleStatus).st) = (s3, Except.error exc2) →
          (f_body (Val.pyList [Val.pyInt 1, Val.pyStr "x"]) job2 id id "" ""
              (f_body (Val.pyList [Val.pyInt 1, Val.pyStr "x"]) valueErrorJob
                id id "" "" sampleStatus).st).out
            = Except.ok (Val.pyList ([Val.pyInt 1, Val.pyStr "x"]
                ++ [Val.pyStr (error_div exc2)])))) :=
  ⟨rfl, C8_template_preserved [Val.pyInt 1, Val.pyStr "x"] valueErrorJob id id "" ""
    sampleStatus sampleStatus { kind := "ValueError", msg := "bad size" } rfl⟩

/-- C9: the wrapped function reserves the keyword argument
`extra_outputs_array`: when the call's keyword arguments carry it, the
job receives the remaining keyword arguments without it (other keys
unchanged), the call is exactly the body run with the caller's
template, the wrap-time template is irrelevant, and on failure the
caller's template (when a list) is the one extended with the error
element. -/
theorem C9_kwarg_reserved
    (func : List Val → List (String × Val) → Status → Status × Except Exc Val)
    (extra_outputs : Val) (begin_fn end_fn : Status → Status)
    (repr_args : List Val → String) (repr_kwargs : List (String × Val) → String)
    (args : List Val) (kwargs : List (String × Val)) (s : Status) (t : Val)
    (hk : kwargs.lookup "extra_outputs_array" = some t) :
    (kwargs.filter (fun p => p.1 != "extra_outputs_array")).lookup
        "extra_outputs_array" = none
    ∧ (∀ k, ¬ k = "extra_outputs_array" →
        (kwargs.filter (fun p => p.1 != "extra_outputs_array")).lookup k
          = kwargs.lookup k)
    ∧ wrap_gpu_call func extra_outputs begin_fn end_fn repr_args repr_kwargs
        args kwargs s
      = f_body t (func args (kwargs.filter (fun p => p.1 != "extra_outputs_array")))
          begin_fn end_fn (repr_args args)
          (repr_kwargs (kwargs.filter (fun p => p.1 != "extra_outputs_array"))) s
    ∧ (∀ eo2, wrap_gpu_call func extra_outputs begin_fn end_fn repr_args repr_kwargs
          args kwargs s
        = wrap_gpu_call func eo2 begin_fn end_fn repr_args repr_kwargs args kwargs s)
    ∧ (∀ s2 exc xs, t = Val.pyList xs →
        func args (kwargs.filter (fun p => p.1 != "extra_outputs_array"))
            (begin_fn s) = (s2, Except.error exc) →
        (wrap_gpu_call func extra_outputs begin_fn end_fn repr_args repr_kwargs
            args kwargs s).out
          = Except.ok (Val.pyList (xs ++ [Val.pyStr (error_div exc)]))) := by
  refine ⟨lookup_filter_out _ kwargs, fun k hk2 => lookup_filter_other _ k hk2 kwargs,
    ?_, ?_, ?_⟩
  · rw [wrap_gpu_call, hk]
    rfl
  · intro eo2
    rw [wrap_gpu_call, wrap_gpu_call, hk]
    rfl
  · intro s2 exc xs ht hjob
    subst ht
    rw [wrap_gpu_call, hk]
    show (f_body (Val.pyList xs) _ _ _ _ _ _).out = _
    rw [f_body_error (Val.pyList xs) _ begin_fn end_fn _ _ s s2 exc rfl hjob]
    rfl

/-- Witness for C9: concrete keyword arguments carrying the reserved
name alongside another key. -/
theorem C9_witness :
    sampleKwargs.lookup "extra_outputs_array" = some (Val.pyList [Val.pyInt 1])
    ∧ ((sampleKwargs.filter (fun p => p.1 != "extra_outputs_array")).lookup
        "extra_outputs_array" = none
      ∧ (∀ k, ¬ k = "extra_outputs_array" →
          (sampleKwargs.filter (fun p => p.1 != "extra_outputs_array")).lookup k
            = sampleKwargs.lookup k)
      ∧ wrap_gpu_call valueErrorFunc Val.pyNone id id (fun _ => "") (fun _ => "")
          [] sampleKwargs sampleStatus
        = f_body (Val.pyList [Val.pyInt 1])
            (valueErrorFunc []
              (sampleKwargs.filter (fun p => p.1 != "extra_outputs_array")))
            id id ((fun (_ : List Val) => "") [])
            ((fun (_ : List (String × Val)) => "")
              (sampleKwargs.filter (fun p => p.1 != "extra_outputs_array")))
            sampleStatus
      ∧ (∀ eo2, wrap_gpu_call valueErrorFunc Val.pyNone id id (fun _ => "")
            (fun _ => "") [] sampleKwargs sampleStatus
          = wrap_gpu_call valueErrorFunc eo2 id id (fun _ => "") (fun _ => "")
              [] sampleKwargs sampleStatus)
      ∧ (∀ s2 exc xs, Val.pyList [Val.pyInt 1] = Val.pyList xs →
          valueErrorFunc []
              (sampleKwargs.filter (fun p => p.1 != "extra_outputs_array"))
              (id sampleStatus) = (s2, Except.error exc) →
          (wrap_gpu_call valueErrorFunc Val.pyNone id id (fun _ => "") (fun _ => "")
              [] sampleKwargs sampleStatus).out
            = Except.ok (Val.pyList (xs ++ [Val.pyStr (error_div exc)])))) :=
  ⟨rfl, C9_kwarg_reserved valueErrorFunc Val.pyNone id id (fun _ => "") (fun _ => "")
    [] sampleKwargs sampleStatus (Val.pyList [Val.pyInt 1]) rfl⟩

/-- C10: `sanitize_tags` returns the sanitized form of only the last
comma-separated tag — spaces replaced by underscores, then characters
restricted to alphanumerics plus `.`, `_`, `-` — and every tag before
the final comma has no effect on the result, because the accumulator
is overwritten on each loop iteration. -/
theorem C10_sanitize_tags_last_only (name pre post : String) :
    sanitize_tags name
      = String.mk ((replaceSpace ((pySplitComma name.data).getLastD [])).filter
          keepTag)
    ∧ sanitize_tags (pre ++ "," ++ post) = sanitize_tags post := by
  refine ⟨sanitize_tags_eq name, ?_⟩
  rw [sanitize_tags_eq, sanitize_tags_eq]
  have hdata : (pre ++ "," ++ post).data = pre.data ++ ',' :: post.data := by
    rw [String.data_append, String.data_append]
    simp
  rw [hdata, pySplitComma_append,
    getLastD_append_right _ _ (pySplitComma_ne_nil post.data)]

end DB
